import Mathlib

/-
Verification of the advice-generator widget: a Pinia store (`userAdviceStore`
in src/stores/counter.js) holding two fields `advice` and `nAdvice`, one
asynchronous action `fetchAdvice`, two getters `getAdvice` and `getIdAdvice`,
and a Vue component (src/App.vue) that renders the state and triggers the
action on mount and on click.
-/

namespace AdviceGenerator

/-- JavaScript values that can flow through this program: `undefined`
(a missing object property), strings, and integer ids. -/
inductive JVal where
  | undef
  | str (s : String)
  | num (n : Int)
deriving DecidableEq, Repr

/-- JS template-literal interpolation of a value, as in
  `"$\x7bstate.advice\x7d"`: `undefined` prints as "undefined", strings embed
verbatim, integers print in decimal. -/
def templateInterp : JVal → String
  | JVal.undef => "undefined"
  | JVal.str s => s
  | JVal.num n => toString n

/-- Vue text-interpolation stringification (toDisplayString): `null` and
`undefined` render as the empty string, strings verbatim, numbers in
decimal. -/
def toDisplayString : JVal → String
  | JVal.undef => ""
  | JVal.str s => s
  | JVal.num n => toString n

/-- The store state of `userAdviceStore`: two fields, `advice` and
`nAdvice`. -/
structure AdviceState where
  advice : JVal
  nAdvice : JVal
deriving DecidableEq, Repr

/-- The initial state: `state: () => (\x7b advice: "", nAdvice: "" \x7d)` —
both fields are the empty string. -/
def initialState : AdviceState :=
  { advice := JVal.str "", nAdvice := JVal.str "" }

/-- The `slip` object of an API response; its `id` and `advice` properties
may hold any JS value (an absent property reads as `undefined`). -/
structure SlipObj where
  id : JVal
  advice : JVal
deriving DecidableEq, Repr

/-- The body of a resolved HTTP response (`data.data`): reading `.slip` on it
yields either an object or `undefined` (modelled as `none`). -/
structure ResponseData where
  slip : Option SlipObj
deriving DecidableEq, Repr

/-- Outcome of `await axios.get(...)`: the promise either rejects (network
error, non-2xx status) or resolves with response data. -/
inductive FetchOutcome where
  | networkError
  | ok (resp : ResponseData)
deriving DecidableEq, Repr

/-- Errors the try-block of `fetchAdvice` can throw: a rejected request, or
the TypeError raised by destructuring `undefined`
(`const \x7b id, advice \x7d = data.data.slip`). -/
inductive JsError where
  | network
  | typeError
deriving DecidableEq, Repr

/-- The try-block of `fetchAdvice`: await the request, destructure
`data.data.slip` into `id` and `advice` (throws when `slip` is absent), then
assign `this.advice = advice; this.nAdvice = id`. It returns the replacement
state and never reads the prior state. -/
def tryBody : FetchOutcome → Except JsError AdviceState
  | FetchOutcome.networkError => Except.error JsError.network
  | FetchOutcome.ok resp =>
    match resp.slip with
    | none => Except.error JsError.typeError
    | some slip => Except.ok { advice := slip.advice, nAdvice := slip.id }

/-- Observable side effects of one `fetchAdvice` call: how many `alert`
dialogs and how many `console.log` calls it performed. -/
structure FetchEffects where
  alerts : Nat
  logs : Nat
deriving DecidableEq, Repr

/-- The action `fetchAdvice` on a prior state `s`: run the try-block; on
success the new state replaces `s` and one `console.log(data.data.slip)`
fired; on any thrown error, the catch-block fires `alert(error)` and
`console.log(error)` once each and `s` is kept. -/
def fetchAdvice (s : AdviceState) (o : FetchOutcome) :
    AdviceState × FetchEffects :=
  match tryBody o with
  | Except.ok s2 => (s2, { alerts := 0, logs := 1 })
  | Except.error _ => (s, { alerts := 1, logs := 1 })

/-- `fetchAdvice` viewed from its caller: the whole body is wrapped in
try/catch, and the catch handler itself completes normally, so the call
site sees `Except.ok` — or `Except.error` if an exception were to escape. -/
def fetchAdviceRun (s : AdviceState) (o : FetchOutcome) :
    Except JsError (AdviceState × FetchEffects) :=
  match tryBody o with
  | Except.ok s2 => Except.ok (s2, { alerts := 0, logs := 1 })
  | Except.error _ => Except.ok (s, { alerts := 1, logs := 1 })

/-- Getter `getAdvice`: the template literal `"$\x7bstate.advice\x7d"` with
literal double quotes around the interpolation. -/
def getAdvice (s : AdviceState) : String :=
  "\"" ++ templateInterp s.advice ++ "\""

/-- Getter `getIdAdvice`: the template literal
`advice #$\x7bstate.nAdvice\x7d`. -/
def getIdAdvice (s : AdviceState) : String :=
  "advice #" ++ templateInterp s.nAdvice

/-- What the App.vue template shows: the id label in the `h4` element and
the advice text in the `h1` element. -/
structure RenderedCard where
  idLabel : String
  textLabel : String
deriving DecidableEq, Repr

/-- Rendering App.vue: `mapState(userAdviceStore, ["advice", "nAdvice"])`
maps the raw state fields into the component, and the template interpolates
`\x7b\x7b nAdvice \x7d\x7d` and `\x7b\x7b advice \x7d\x7d` directly. -/
def renderApp (s : AdviceState) : RenderedCard :=
  { idLabel := toDisplayString s.nAdvice
    textLabel := toDisplayString s.advice }

/-- Primitive operations a component method body performs, in order. -/
inductive UiOp where
  | callFetchAdvice
  | consoleLog (msg : String)
deriving DecidableEq, Repr

/-- Body of `newAdvice()` in App.vue:
`this.fetchAdvice(); console.log("generate advice");`. -/
def newAdviceBody : List UiOp :=
  [UiOp.callFetchAdvice, UiOp.consoleLog "generate advice"]

/-- Body of the `mounted()` hook in App.vue: `this.fetchAdvice();`. -/
def mountedBody : List UiOp :=
  [UiOp.callFetchAdvice]

/-- The click handler ( click="this.newAdvice()" in the template) invokes `newAdvice()`
exactly once per click, so one click executes `newAdvice`'s body once. -/
def clickHandlerBody : List UiOp :=
  newAdviceBody

/-- Number of `fetchAdvice` invocations a list of operations performs. -/
def fetchCalls (ops : List UiOp) : Nat :=
  ops.countP (fun op => decide (op = UiOp.callFetchAdvice))

/-- The state transition of one completed `fetchAdvice` call (effects
dropped). -/
def step (s : AdviceState) (o : FetchOutcome) : AdviceState :=
  (fetchAdvice s o).1

/-- State after a sequence of `fetchAdvice` calls complete in order. -/
def resolveAll (s : AdviceState) (outs : List FetchOutcome) : AdviceState :=
  outs.foldl step s

/-- The slip a single outcome successfully delivered, if any. -/
def successSlip : FetchOutcome → Option SlipObj
  | FetchOutcome.networkError => none
  | FetchOutcome.ok resp => resp.slip

/-- The state written by a successful fetch of `slip`: both fields from the
same response. -/
def slipState (slip : SlipObj) : AdviceState :=
  { advice := slip.advice, nAdvice := slip.id }

/-- The slip of the last successful fetch in a sequence of outcomes (the
list is processed head first, so later elements win). -/
def lastSuccess : List FetchOutcome → Option SlipObj
  | [] => none
  | o :: rest =>
    match lastSuccess rest with
    | some slip => some slip
    | none => successSlip o

/-- UI-loop events around refresh calls: a call starting (it suspends at the
`await` without touching state) and a pending call's response resolving,
which runs the rest of the body. -/
inductive UiEvent where
  | startRefresh
  | resolveWith (o : FetchOutcome)
deriving DecidableEq, Repr

/-- One UI-loop event: starting a call leaves the state unchanged; a
resolution applies the call's body to the state current at that moment. -/
def stepEvent (s : AdviceState) (e : UiEvent) : AdviceState :=
  match e with
  | UiEvent.startRefresh => s
  | UiEvent.resolveWith o => step s o

/-- State after a sequence of UI-loop events. -/
def runEvents (s : AdviceState) (es : List UiEvent) : AdviceState :=
  es.foldl stepEvent s

/-- Every operation the store and the view expose over the state. -/
inductive StoreOp where
  | refresh (o : FetchOutcome)
  | readAdviceGetter
  | readIdGetter
  | renderView
deriving Repr

/-- Whether an operation is the refresh action. -/
def StoreOp.isRefresh : StoreOp → Bool
  | StoreOp.refresh _ => true
  | _ => false

/-- What each exposed operation observes and what state it leaves behind. -/
inductive OpOutput where
  | noOutput
  | text (s : String)
  | card (c : RenderedCard)
deriving DecidableEq, Repr

/-- Applying an exposed operation: `refresh` runs `fetchAdvice`; the two
getters and the view render compute strings from the state. -/
def applyOp (s : AdviceState) : StoreOp → AdviceState × OpOutput
  | StoreOp.refresh o => ((fetchAdvice s o).1, OpOutput.noOutput)
  | StoreOp.readAdviceGetter => (s, OpOutput.text (getAdvice s))
  | StoreOp.readIdGetter => (s, OpOutput.text (getIdAdvice s))
  | StoreOp.renderView => (s, OpOutput.card (renderApp s))

lemma step_by_outcome (s : AdviceState) (o : FetchOutcome) :
    step s o =
      (match successSlip o with
       | none => s
       | some slip => slipState slip) := by
  cases o with
  | networkError => rfl
  | ok resp =>
    obtain ⟨slipOpt⟩ := resp
    cases slipOpt <;> rfl

lemma resolveAll_lastSuccess (outs : List FetchOutcome) :
    ∀ s : AdviceState,
      resolveAll s outs =
        (match lastSuccess outs with
         | none => s
         | some slip => slipState slip) := by
  induction outs with
  | nil => intro s; rfl
  | cons o rest ih =>
    intro s
    have hfold : resolveAll s (o :: rest) = resolveAll (step s o) rest := rfl
    rw [hfold, ih (step s o)]
    cases h : lastSuccess rest with
    | some slip => simp [lastSuccess, h]
    | none =>
      simp only [lastSuccess, h]
      cases ho : successSlip o with
      | none => simp [step_by_outcome, ho]
      | some slip => simp [step_by_outcome, ho]

lemma lastSuccess_mem {outs : List FetchOutcome} {slip : SlipObj}
    (h : lastSuccess outs = some slip) :
    ∃ o ∈ outs, successSlip o = some slip := by
  induction outs with
  | nil => simp [lastSuccess] at h
  | cons o rest ih =>
    rw [lastSuccess] at h
    cases h2 : lastSuccess rest with
    | some slip2 =>
      rw [h2] at h
      obtain ⟨o2, ho2, hs2⟩ := ih (h2.trans h)
      exact ⟨o2, List.mem_cons_of_mem o ho2, hs2⟩
    | none =>
      rw [h2] at h
      exact ⟨o, List.mem_cons_self o rest, h⟩

/-- Claim C1: after a successful refresh whose response is
`\x7b slip: \x7b id: 42, advice: "Be kind." \x7d \x7d`, from any prior
state, `getAdvice` returns the string `"Be kind."` with surrounding double
quotes, and `getIdAdvice` returns a label containing `42`. -/
theorem refresh_success_display (s : AdviceState) :
    getAdvice (step s (FetchOutcome.ok
        ⟨some ⟨JVal.num 42, JVal.str "Be kind."⟩⟩)) = "\"Be kind.\"" ∧
    ∃ a b : String,
      getIdAdvice (step s (FetchOutcome.ok
        ⟨some ⟨JVal.num 42, JVal.str "Be kind."⟩⟩)) = a ++ "42" ++ b := by
  exact ⟨rfl, "advice #", "", rfl⟩

/-- Claim C2, counterexample: it is false that for every store state the
view shows exactly the values of the getters `getAdvice` and `getIdAdvice`;
at the initial state the view shows two empty strings while the getters
return a quoted empty string and the `advice #` label. -/
theorem view_equals_getters_false :
    ¬ ∀ s : AdviceState,
        (renderApp s).textLabel = getAdvice s ∧
        (renderApp s).idLabel = getIdAdvice s := by
  intro h
  have h0 := h initialState
  simp [renderApp, initialState, getAdvice, getIdAdvice, toDisplayString,
    templateInterp] at h0

/-- Claim C2, amended: the view renders the raw state fields `advice` and
`nAdvice` directly, not the getters; for every state holding string or
number values, `getAdvice` equals the rendered text wrapped in double
quotes, and `getIdAdvice` equals the rendered id behind the fixed label
`advice #`. -/
theorem view_renders_raw_state (s : AdviceState)
    (ha : s.advice ≠ JVal.undef) (hn : s.nAdvice ≠ JVal.undef) :
    getAdvice s = "\"" ++ (renderApp s).textLabel ++ "\"" ∧
    getIdAdvice s = "advice #" ++ (renderApp s).idLabel := by
  constructor
  · cases h : s.advice <;>
      simp [getAdvice, renderApp, templateInterp, toDisplayString, h] at ha ⊢
  · cases h : s.nAdvice <;>
      simp [getIdAdvice, renderApp, templateInterp, toDisplayString, h]
        at hn ⊢

/-- Witness for the amended C2 at the initial state. -/
theorem view_renders_raw_state_witness :
    (initialState.advice ≠ JVal.undef ∧ initialState.nAdvice ≠ JVal.undef) ∧
    (getAdvice initialState =
        "\"" ++ (renderApp initialState).textLabel ++ "\"" ∧
      getIdAdvice initialState =
        "advice #" ++ (renderApp initialState).idLabel) :=
  ⟨⟨by decide, by decide⟩,
    view_renders_raw_state initialState (by decide) (by decide)⟩

/-- Claim C3: when the try-block of a refresh throws (rejected request or
failed destructuring), the prior state is kept unchanged — both fields —
and exactly one alert is raised. -/
theorem refresh_failure_keeps_state (s : AdviceState) (o : FetchOutcome)
    (h : (tryBody o).isOk = false) :
    (fetchAdvice s o).1 = s ∧ (fetchAdvice s o).2.alerts = 1 := by
  cases he : tryBody o with
  | ok s2 => rw [he] at h; simp [Except.isOk, Except.toBool] at h
  | error e => simp [fetchAdvice, he]

/-- Witness for C3: a network error at the initial state. -/
theorem refresh_failure_keeps_state_witness :
    (tryBody FetchOutcome.networkError).isOk = false ∧
    ((fetchAdvice initialState FetchOutcome.networkError).1 = initialState ∧
      (fetchAdvice initialState FetchOutcome.networkError).2.alerts = 1) :=
  ⟨by decide,
    refresh_failure_keeps_state initialState FetchOutcome.networkError
      (by decide)⟩

/-- Claim C4: in the initial state, before any refresh, `getAdvice` returns
exactly the two-character string of two double quotes, and `getIdAdvice`
returns the fixed label with an empty id. -/
theorem initial_display :
    getAdvice initialState = "\"\"" ∧
    getIdAdvice initialState = "advice #" := by
  constructor <;> rfl

/-- Claim C5: after any sequence of refresh outcomes from the initial
state, the store either still holds the initial record or holds exactly the
two fields of one slip delivered by some successful fetch of the sequence —
never fields of two different responses. -/
theorem advice_record_atomic (outs : List FetchOutcome) :
    resolveAll initialState outs = initialState ∨
    ∃ slip : SlipObj, (∃ o ∈ outs, successSlip o = some slip) ∧
      resolveAll initialState outs = slipState slip := by
  rw [resolveAll_lastSuccess outs initialState]
  cases h : lastSuccess outs with
  | none => exact Or.inl rfl
  | some slip => exact Or.inr ⟨slip, lastSuccess_mem h, rfl⟩

/-- Claim C6: one click of the control executes exactly one `fetchAdvice`
call, and the `mounted` hook executes exactly one `fetchAdvice` call. -/
theorem one_fetch_per_trigger :
    fetchCalls clickHandlerBody = 1 ∧ fetchCalls mountedBody = 1 := by
  constructor <;> rfl

/-- Claim C7: two overlapping refresh calls whose successful responses
resolve in order (first `slip1`, then `slip2`): the final state holds the
second response's values — last writer wins. -/
theorem last_writer_wins (s : AdviceState) (slip1 slip2 : SlipObj) :
    runEvents s
      [UiEvent.startRefresh, UiEvent.startRefresh,
        UiEvent.resolveWith (FetchOutcome.ok ⟨some slip1⟩),
        UiEvent.resolveWith (FetchOutcome.ok ⟨some slip2⟩)] =
      slipState slip2 := by
  simp [runEvents, stepEvent, step, fetchAdvice, tryBody, slipState]

/-- Claim C8: only the refresh action mutates the state; the two getters
and the view render return the state unchanged. -/
theorem only_refresh_mutates (s : AdviceState) (op : StoreOp)
    (h : op.isRefresh = false) : (applyOp s op).1 = s := by
  cases op with
  | refresh o => simp [StoreOp.isRefresh] at h
  | readAdviceGetter => rfl
  | readIdGetter => rfl
  | renderView => rfl

/-- Witness for C8: reading `getAdvice` at the initial state. -/
theorem only_refresh_mutates_witness :
    StoreOp.isRefresh StoreOp.readAdviceGetter = false ∧
    (applyOp initialState StoreOp.readAdviceGetter).1 = initialState :=
  ⟨rfl, only_refresh_mutates initialState StoreOp.readAdviceGetter rfl⟩

/-- Claim C9: `fetchAdvice` never propagates an exception: for every prior
state and every outcome of the request and of reading the response fields
(including a response lacking `slip`), the call completes normally and its
caller observes the normal result. -/
theorem fetch_never_throws (s : AdviceState) (o : FetchOutcome) :
    fetchAdviceRun s o = Except.ok (fetchAdvice s o) := by
  cases he : tryBody o with
  | ok s2 => simp [fetchAdviceRun, fetchAdvice, he]
  | error e => simp [fetchAdviceRun, fetchAdvice, he]

/-- Claim C10: `nAdvice` is initialized to the empty string, not the
integer 0, and after any sequence of refreshes it equals verbatim the
`slip.id` of the last successful fetch — untransformed — or the empty
string when no fetch succeeded. -/
theorem nAdvice_verbatim (outs : List FetchOutcome) :
    initialState.nAdvice = JVal.str "" ∧
    initialState.nAdvice ≠ JVal.num 0 ∧
    (resolveAll initialState outs).nAdvice =
      (match lastSuccess outs with
       | none => JVal.str ""
       | some slip => slip.id) := by
  refine ⟨rfl, by decide, ?_⟩
  rw [resolveAll_lastSuccess outs initialState]
  cases h : lastSuccess outs with
  | none => rfl
  | some slip => rfl

end AdviceGenerator
